import Mathlib

/-!
Verification of the academy administration services (student, guardian,
course/enrollment) against their natural-language specification.

The Python services are shallowly embedded as pure Lean functions over an
explicit database state (`DB`).  Each service method becomes a function
taking the state (and, where the Python code reads the clock, an explicit
`today : Nat` day number) and returning its result paired with the new
state; a Python `raise` becomes an `Except.error` carrying the wrapped
message, and — because every service method rolls back its transaction on
error — the state returned alongside an error is the unchanged input state.
SQLAlchemy query combinators map to list operations: `.first()` is
`List.find?`, `.count()` is `List.countP`, `.all()` is `List.filter`, and
`db.add` appends a row.
-/

/-- Gender enum from `src/models/database.py` (MALE = "남", FEMALE = "여"). -/
inductive Gender where
  | male
  | female
deriving DecidableEq, Repr

/-- Student lifecycle status from `src/models/database.py`. -/
inductive StudentStatus where
  | active
  | inactive
  | graduated
  | transferred
deriving DecidableEq, Repr

/-- Modelled from the spec: the `EnrollmentStatus` enum is imported by
`src/services/course_service.py` from `src.models.database`, but the
`models/database.py` file in the repository stops after `StudentGuardian`
and does not contain it.  Spec S3 gives an Enrollment "a status
(active/dropped)". -/
inductive EnrollmentStatus where
  | active
  | dropped
deriving DecidableEq, Repr

/-- Modelled from the spec: the `CourseStatus` enum is likewise imported but
missing from `models/database.py`.  Spec S3 gives a course a "lifecycle
status (active/completed/cancelled...)".  Only distinctness of the labels
matters for the claims below. -/
inductive CourseStatus where
  | active
  | completed
  | cancelled
deriving DecidableEq, Repr

/-- Student row (`src/models/database.py`), restricted to the columns the
verified services read: primary key, the unique academy id, name, gender and
status.  The remaining contact/address/medical columns are carried by no
claim and are omitted. -/
structure Student where
  id : Nat
  academy_id : String
  name : String
  gender : Gender
  status : StudentStatus
deriving DecidableEq, Repr

/-- Guardian row (`src/models/database.py`), restricted to the columns the
verified services read: primary key, name and phone. -/
structure Guardian where
  id : Nat
  name : String
  phone : String
deriving DecidableEq, Repr

/-- StudentGuardian join row (`src/models/database.py`): composite primary
key (student_id, guardian_id).  The row's `created_at` column (a DB-defaulted
timestamp) is read by no service and is omitted. -/
structure SGLink where
  student_id : Nat
  guardian_id : Nat
deriving DecidableEq, Repr

/-- Modelled from the spec: the `Course` model is imported by
`src/services/course_service.py` but missing from `models/database.py`.
Spec S3: a course "has name, level, capacity (integer >= 1), ... lifecycle
status".  Restricted to the columns the enrollment logic reads: primary key,
name, capacity and status. -/
structure Course where
  id : Nat
  name : String
  capacity : Nat
  status : CourseStatus
deriving DecidableEq, Repr

/-- Modelled from the spec: the `Enrollment` model is imported by
`src/services/course_service.py` but missing from `models/database.py`.
Spec S3: an enrollment "links one Student to one Course; has
enrollment/start/end dates and a status (active/dropped)".  Dates are day
numbers (`Nat`). -/
structure Enrollment where
  id : Nat
  student_id : Nat
  course_id : Nat
  enrollment_date : Nat
  start_date : Nat
  end_date : Option Nat
  status : EnrollmentStatus
deriving DecidableEq, Repr

/-- The persistent state: one list of rows per table touched by the claims,
plus the autoincrement counter the storage engine uses for enrollment
primary keys. -/
structure DB where
  students : List Student
  guardians : List Guardian
  student_guardians : List SGLink
  courses : List Course
  enrollments : List Enrollment
  next_enrollment_id : Nat
deriving DecidableEq, Repr

/-! ## Security helpers (`src/utils/security.py`) -/

/-- Two-character zero-padded decimal rendering of `n % 100`, as produced by
each of the `strftime` fields `%y`, `%m`, `%d` on an in-range component. -/
def two_digits (n : Nat) : List Char :=
  [Nat.digitChar (n / 10 % 10), Nat.digitChar (n % 10)]

/-- One uppercase hexadecimal character of `k % 16`; `secrets.token_hex`
renders lowercase hex and the caller applies `.upper()`. -/
def upperHexChar (k : Nat) : Char :=
  (Nat.digitChar (k % 16)).toUpper

/-- Four uppercase hex characters of `r % 65536`: the rendering of the two
random bytes drawn by `secrets.token_hex(2)`, uppercased. -/
def four_hex (r : Nat) : List Char :=
  [upperHexChar (r / 4096), upperHexChar (r / 256),
   upperHexChar (r / 16), upperHexChar r]

/-- `generate_academy_id` (`src/utils/security.py` lines 38-42):
`"AC" + datetime.now().strftime("%y%m%d") + secrets.token_hex(2).upper()`.
The clock is passed in as the year/month/day components and the randomness
as the two random bytes `r < 65536`. -/
def generate_academy_id (y m d : Nat) (r : Nat) : String :=
  ⟨'A' :: 'C' :: (two_digits y ++ two_digits m ++ two_digits d ++ four_hex r)⟩

/-- A character the claim accepts in the random suffix: an uppercase
hexadecimal digit. -/
def isUpperHex (c : Char) : Bool :=
  c.isDigit || ('A' ≤ c && c ≤ 'F')

/-- The format the claim states: `"AC"`, then 6 decimal digits, then 4
uppercase hexadecimal characters. -/
def isValidAcademyId (s : String) : Bool :=
  match s.toList with
  | 'A' :: 'C' :: rest =>
      rest.length == 10
        && (rest.take 6).all Char.isDigit
        && (rest.drop 6).all isUpperHex
  | _ => false

/-! ## Guardian service (`src/services/guardian_service.py`) -/

namespace GuardianService

/-- `GuardianService.get_by_id`: first guardian row with the given primary
key. -/
def get_by_id (st : DB) (guardian_id : Nat) : Option Guardian :=
  st.guardians.find? (fun g => g.id == guardian_id)

/-- The fixed message raised by `delete` while links exist (line 98);
it contains no count. -/
def deleteLinkedMsg : String :=
  "연결된 학생이 있어 삭제할 수 없습니다. 먼저 학생 연결을 해제해주세요."

/-- `GuardianService.delete` (lines 85-107): raises when the guardian is
missing, raises the fixed `deleteLinkedMsg` when the guardian still has
student links, and otherwise deletes the guardian row.  Every raise is
re-wrapped by the method's own handler as "보호자 삭제 실패: " + message,
after a rollback, so the state next to an error is the input state. -/
def delete (st : DB) (guardian_id : Nat) : Except String Bool × DB :=
  match get_by_id st guardian_id with
  | none => (Except.error ("보호자 삭제 실패: " ++ "보호자를 찾을 수 없습니다."), st)
  | some _ =>
      if st.student_guardians.countP (fun l => l.guardian_id == guardian_id) > 0 then
        (Except.error ("보호자 삭제 실패: " ++ deleteLinkedMsg), st)
      else
        (Except.ok true,
         { st with guardians := st.guardians.filter (fun g => !(g.id == guardian_id)) })

/-- `GuardianService.link_student` (lines 121-146): a no-op success when the
pair is already linked, otherwise appends the join row and succeeds. -/
def link_student (st : DB) (guardian_id student_id : Nat) : Bool × DB :=
  match st.student_guardians.find?
      (fun l => l.guardian_id == guardian_id && l.student_id == student_id) with
  | some _ => (true, st)
  | none =>
      (true, { st with student_guardians :=
                st.student_guardians ++ [⟨student_id, guardian_id⟩] })

/-- Removes the first join row matching the pair, as `db.delete` on the row
returned by `.first()` does. -/
def removeFirstLink (student_id guardian_id : Nat) : List SGLink → List SGLink
  | [] => []
  | l :: rest =>
      if l.guardian_id == guardian_id && l.student_id == student_id then rest
      else l :: removeFirstLink student_id guardian_id rest

/-- `GuardianService.unlink_student` (lines 148-165): deletes the join row
and returns true when the pair is linked, returns false otherwise. -/
def unlink_student (st : DB) (guardian_id student_id : Nat) : Bool × DB :=
  match st.student_guardians.find?
      (fun l => l.guardian_id == guardian_id && l.student_id == student_id) with
  | some _ =>
      (true, { st with student_guardians :=
                removeFirstLink student_id guardian_id st.student_guardians })
  | none => (false, st)

/-- The message of the `AttributeError` raised by `self.get_guardian_by_id`:
no method of that name exists on `GuardianService` (the lookup method is
`get_by_id`). -/
def mergeAttributeErrorMsg : String :=
  "\x27GuardianService\x27 object has no attribute \x27get_guardian_by_id\x27"

/-- `GuardianService.merge` (lines 189-233).  Its first statement is
`primary_guardian = self.get_guardian_by_id(primary_guardian_id)`, and
`get_guardian_by_id` is defined nowhere on the class (the lookup method is
named `get_by_id`), so every call raises `AttributeError` before touching
any row; the method's own handler catches it, rolls the transaction back,
and re-raises it wrapped as "보호자 병합 실패: " + message.  The intended
re-pointing of links (lines 196-227) is unreachable. -/
def merge (st : DB) (primary_guardian_id : Nat)
    (duplicate_guardian_ids : List Nat) : Except String Bool × DB :=
  (Except.error ("보호자 병합 실패: " ++ mergeAttributeErrorMsg), st)

end GuardianService

/-! ## Student service (`src/services/student_service.py`) -/

namespace StudentService

/-- `StudentService.link_guardian` (lines 133-159): a no-op success when the
pair is already linked, otherwise appends the join row and succeeds. -/
def link_guardian (st : DB) (student_id guardian_id : Nat) : Bool × DB :=
  match st.student_guardians.find?
      (fun l => l.student_id == student_id && l.guardian_id == guardian_id) with
  | some _ => (true, st)
  | none =>
      (true, { st with student_guardians :=
                st.student_guardians ++ [⟨student_id, guardian_id⟩] })

/-- `StudentService.unlink_guardian` (lines 161-179): deletes the join row
when the pair is linked, and returns `True` on BOTH branches — the final
`return True` at line 175 runs whether or not a link was found. -/
def unlink_guardian (st : DB) (student_id guardian_id : Nat) : Bool × DB :=
  match st.student_guardians.find?
      (fun l => l.student_id == student_id && l.guardian_id == guardian_id) with
  | some _ =>
      (true, { st with student_guardians :=
                (GuardianService.removeFirstLink student_id guardian_id
                  st.student_guardians) })
  | none => (true, st)

/-- `StudentService.generate_unique_academy_id` (lines 221-227): loops
`generate_academy_id()` until the value matches no existing student's
`academy_id`.  The clock is fixed at `y m d` and `rs` is the stream of
random draws the loop consumes; the result is the first collision-free
value, or `none` when the supplied stream is exhausted (the Python loop
would keep drawing). -/
def generate_unique_academy_id (students : List Student) (y m d : Nat)
    (rs : List Nat) : Option String :=
  rs.findSome? (fun r =>
    let academy_id := generate_academy_id y m d r
    if students.any (fun s => s.academy_id == academy_id) then none
    else some academy_id)

end StudentService

/-! ## Course/enrollment service (`src/services/course_service.py`) -/

/-- The caller-supplied `enrollment_data` mapping of
`CourseService.enroll_student` (line 131).  The Python value is a plain
`dict` merged into the row dict with `enrollment_dict.update(enrollment_data)`
(line 164), so any enrollment column it carries overrides the computed one;
each modelled field is `none` when the key is absent.  Keys that are not
enrollment columns would make the `Enrollment(**...)` constructor raise and
are not modelled. -/
structure EnrollmentData where
  student_id : Option Nat := none
  course_id : Option Nat := none
  enrollment_date : Option Nat := none
  start_date : Option Nat := none
  end_date : Option Nat := none
  status : Option EnrollmentStatus := none
deriving DecidableEq, Repr

namespace CourseService

/-- `CourseService.get_course_by_id` (lines 91-93). -/
def get_course_by_id (st : DB) (course_id : Nat) : Option Course :=
  st.courses.find? (fun c => c.id == course_id)

/-- `CourseService.get_course_enrollment_count` (lines 201-208): the number
of ACTIVE enrollments of the course. -/
def get_course_enrollment_count (st : DB) (course_id : Nat) : Nat :=
  st.enrollments.countP
    (fun e => e.course_id == course_id && e.status == EnrollmentStatus.active)

/-- `CourseService.enroll_student` (lines 131-170).  In order: reject when
an active enrollment for the pair exists, reject when the course is missing,
reject when the active count has reached the capacity; otherwise build the
row dict (pair, enrollment_date = today, start_date = caller-supplied or
today, status = ACTIVE), merge `enrollment_data` over it, and insert.  The
raises are plain `ValueError`s thrown before any write, so the state next to
an error is the input state. -/
def enroll_student (st : DB) (today : Nat) (student_id course_id : Nat)
    (enrollment_data : Option EnrollmentData) : Except String Enrollment × DB :=
  match st.enrollments.find?
      (fun e => e.student_id == student_id && e.course_id == course_id
        && e.status == EnrollmentStatus.active) with
  | some _ => (Except.error "이미 이 수강과목에 등록되어 있습니다.", st)
  | none =>
      match get_course_by_id st course_id with
      | none => (Except.error "존재하지 않는 수강과목입니다.", st)
      | some course =>
          if get_course_enrollment_count st course_id ≥ course.capacity then
            (Except.error "수강과목 정원이 초과되었습니다.", st)
          else
            let d := enrollment_data.getD {}
            let e : Enrollment :=
              { id := st.next_enrollment_id,
                student_id := d.student_id.getD student_id,
                course_id := d.course_id.getD course_id,
                enrollment_date := d.enrollment_date.getD today,
                start_date := d.start_date.getD today,
                end_date := d.end_date,
                status := d.status.getD EnrollmentStatus.active }
            (Except.ok e,
             { st with enrollments := st.enrollments ++ [e],
                       next_enrollment_id := st.next_enrollment_id + 1 })

/-- Updates the first enrollment row with the given primary key to DROPPED
with `end_date = today`, as the mutation of the object returned by
`.first()` does. -/
def dropFirst (today enrollment_id : Nat) : List Enrollment → List Enrollment
  | [] => []
  | e :: rest =>
      if e.id == enrollment_id then
        { e with status := EnrollmentStatus.dropped, end_date := some today } :: rest
      else e :: dropFirst today enrollment_id rest

/-- `CourseService.drop_enrollment` (lines 172-181): returns false when no
enrollment has the id, otherwise sets the row's status to DROPPED, stamps
`end_date` with today, and returns true. -/
def drop_enrollment (st : DB) (today enrollment_id : Nat) : Bool × DB :=
  match st.enrollments.find? (fun e => e.id == enrollment_id) with
  | none => (false, st)
  | some _ =>
      (true, { st with enrollments := dropFirst today enrollment_id st.enrollments })

end CourseService

/-! ## Student bulk import (`src/services/student_service.py` lines 229-267) -/

/-- One data row of the student import spreadsheet, by the named-column
contract of `import_from_excel`.  A cell is `none` when it holds no value;
the grade column is numeric in the sheet and is carried as a number. -/
structure ImportRow where
  name : Option String := none
  gender : Option String := none
  birth_date : Option String := none
  phone : Option String := none
  school_name : Option String := none
  grade : Option Nat := none
  postal_code : Option String := none
  road_address : Option String := none
  detail_address : Option String := none
deriving DecidableEq, Repr

/-- Splits a character list on the separator character of the `YYYY-MM-DD`
date format. -/
def splitOnDash : List Char → List (List Char)
  | [] => [[]]
  | c :: rest =>
      match splitOnDash rest with
      | [] => [[]]
      | g :: gs => if c = '-' then [] :: g :: gs else (c :: g) :: gs

/-- The numeric value of a digit string. -/
def digitsVal (cs : List Char) : Nat :=
  cs.foldl (fun acc c => acc * 10 + (c.toNat - 48)) 0

/-- A non-empty all-digit group parses to its value, anything else to
`none`. -/
def digitsToNat? (cs : List Char) : Option Nat :=
  if cs.isEmpty || !cs.all Char.isDigit then none else some (digitsVal cs)

/-- The `YYYY-MM-DD` date format of the import contract, parsed into
(year, month, day); malformed strings parse to `none`. -/
def parseDate (s : String) : Option (Nat × Nat × Nat) :=
  match splitOnDash s.toList with
  | [ys, ms, ds] =>
      match digitsToNat? ys, digitsToNat? ms, digitsToNat? ds with
      | some y, some m, some d =>
          if 1 ≤ m && m ≤ 12 && 1 ≤ d && d ≤ 31 then some (y, m, d) else none
      | _, _, _ => none
  | _ => none

/-- The attribute mapping a successfully validated import row hands to
`StudentService.create` (lines 240-250). -/
structure StudentData where
  name : String
  gender : Gender
  birth_date : Nat × Nat × Nat
  phone : String
  school_name : Option String
  grade : Option Nat
  postal_code : String
  road_address : Option String
  detail_address : Option String
deriving DecidableEq, Repr

/-- The error a row with an unparseable or missing birth date raises while
the row dict is being built (`pd.to_datetime(...).date()`, line 243). -/
def birthDateErrMsg : String := "생년월일을 날짜로 변환할 수 없습니다."

/-- The `ValueError` raised when the required name cell is empty
(line 254). -/
def nameRequiredMsg : String := "이름은 필수입니다."

namespace StudentService

/-- The per-row body of `import_from_excel` (lines 239-257): building the
row dict converts the birth date first (a conversion failure fails the row),
then the required-name check runs — a `None` or empty name cell is falsy —
then the gender cell is compared against the exact string "남" (anything
else becomes FEMALE) and the row is handed to `create`.  The insertion
itself is modelled as returning the created attribute mapping; `create`'s
storage-failure branch is out of scope. -/
def processRow (row : ImportRow) : Except String StudentData :=
  match parseDate (row.birth_date.getD "") with
  | none => Except.error birthDateErrMsg
  | some bd =>
      if row.name.getD "" == "" then Except.error nameRequiredMsg
      else
        Except.ok
          { name := row.name.getD "",
            gender := if row.gender == some "남" then Gender.male else Gender.female,
            birth_date := bd,
            phone := row.phone.getD "",
            school_name := row.school_name,
            grade := row.grade,
            postal_code := row.postal_code.getD "",
            road_address := row.road_address,
            detail_address := row.detail_address }

/-- The summary `import_from_excel` returns (lines 263-267). -/
structure ImportResult where
  success_count : Nat
  error_count : Nat
  errors : List String
deriving DecidableEq, Repr

/-- The row loop of `import_from_excel`: `i` is the 0-based DataFrame index
of the first remaining row; a failing row appends one message labelled
"행 (i+2)" and the loop continues with the remaining rows. -/
def importLoop (i : Nat) : List ImportRow → ImportResult × List StudentData
  | [] => (⟨0, 0, []⟩, [])
  | row :: rest =>
      let (res, created) := importLoop (i + 1) rest
      match processRow row with
      | Except.ok d =>
          (⟨res.success_count + 1, res.error_count, res.errors⟩, d :: created)
      | Except.error msg =>
          (⟨res.success_count, res.error_count + 1,
            ("행 " ++ toString (i + 2) ++ ": " ++ msg) :: res.errors⟩, created)

/-- `StudentService.import_from_excel` (lines 229-267): processes every row
starting at DataFrame index 0, returning the summary and the list of created
students' attribute mappings. -/
def import_from_excel (rows : List ImportRow) : ImportResult × List StudentData :=
  importLoop 0 rows

/-- Whether a row passes the per-row validation of `import_from_excel`. -/
def rowOk (row : ImportRow) : Bool :=
  match processRow row with
  | Except.ok _ => true
  | Except.error _ => false

end StudentService

/-- The enrollment row `enroll_student` inserts on its success path: every
field defaults from the call (the pair, today, status ACTIVE) and any
caller-supplied override wins. -/
def enrolledRow (st : DB) (today sid cid : Nat) (data : Option EnrollmentData) :
    Enrollment :=
  { id := st.next_enrollment_id,
    student_id := (data.getD {}).student_id.getD sid,
    course_id := (data.getD {}).course_id.getD cid,
    enrollment_date := (data.getD {}).enrollment_date.getD today,
    start_date := (data.getD {}).start_date.getD today,
    end_date := (data.getD {}).end_date,
    status := (data.getD {}).status.getD EnrollmentStatus.active }

/-! ## Invariants -/

/-- The spec's join-table invariant: a (student, guardian) pair is linked at
most once. -/
def linkedAtMostOnce (links : List SGLink) : Prop :=
  links.Pairwise (fun a b =>
    ¬(a.student_id = b.student_id ∧ a.guardian_id = b.guardian_id))

/-- The spec's enrollment invariant: at most one ACTIVE enrollment per
(student, course) pair. -/
def activeAtMostOnce (es : List Enrollment) : Prop :=
  es.Pairwise (fun a b =>
    ¬(a.status = EnrollmentStatus.active ∧ b.status = EnrollmentStatus.active
      ∧ a.student_id = b.student_id ∧ a.course_id = b.course_id))

/-- Distinctness of enrollment primary keys, as the storage engine's
autoincrement guarantees. -/
def idsDistinct (es : List Enrollment) : Prop :=
  es.Pairwise (fun a b => a.id ≠ b.id)

instance (links : List SGLink) : Decidable (linkedAtMostOnce links) := by
  unfold linkedAtMostOnce
  infer_instance

instance (es : List Enrollment) : Decidable (activeAtMostOnce es) := by
  unfold activeAtMostOnce
  infer_instance

instance (es : List Enrollment) : Decidable (idsDistinct es) := by
  unfold idsDistinct
  infer_instance

/-! ## Concrete states used by counterexamples and witnesses -/

/-- A database with no rows. -/
def emptyDB : DB := ⟨[], [], [], [], [], 1⟩

/-- Two guardians sharing a phone number, the duplicate linked to student
10: the textbook merge input. -/
def stMerge : DB :=
  { emptyDB with
      guardians := [⟨1, "김가", "010-1111"⟩, ⟨2, "김나", "010-1111"⟩],
      student_guardians := [⟨10, 2⟩] }

/-- One course (id 1, capacity 5), no enrollments. -/
def stCourseOnly : DB :=
  { emptyDB with courses := [⟨1, "대수1", 5, CourseStatus.active⟩] }

/-- Caller-supplied enrollment data that overrides only the status. -/
def dataDropped : EnrollmentData := { status := some EnrollmentStatus.dropped }

/-- Course 1 (capacity 5) with student 1 already actively enrolled. -/
def stDup : DB :=
  { emptyDB with
      courses := [⟨1, "대수1", 5, CourseStatus.active⟩],
      enrollments := [⟨1, 1, 1, 40, 40, none, EnrollmentStatus.active⟩],
      next_enrollment_id := 2 }

/-- Course 1 with capacity 1, filled by an active enrollment of student 2. -/
def stFull : DB :=
  { emptyDB with
      courses := [⟨1, "대수1", 1, CourseStatus.active⟩],
      enrollments := [⟨1, 2, 1, 40, 40, none, EnrollmentStatus.active⟩],
      next_enrollment_id := 2 }

/-- Course 1 with capacity 2 and one active enrollment of student 2. -/
def stOpen : DB :=
  { emptyDB with
      courses := [⟨1, "대수1", 2, CourseStatus.active⟩],
      enrollments := [⟨1, 2, 1, 40, 40, none, EnrollmentStatus.active⟩],
      next_enrollment_id := 2 }

/-- The single active enrollment of student 1 in course 1 used by the
drop-then-re-enroll scenario. -/
def e4 : Enrollment := ⟨1, 1, 1, 50, 50, none, EnrollmentStatus.active⟩

/-- Course 1 at capacity 1, filled by student 1's active enrollment `e4`. -/
def stC4w : DB :=
  { emptyDB with
      courses := [⟨1, "수학", 1, CourseStatus.active⟩],
      enrollments := [e4],
      next_enrollment_id := 2 }

/-- Guardian 7 linked to student 10. -/
def stLinked : DB :=
  { emptyDB with
      guardians := [⟨7, "박보호", "010-2222"⟩],
      student_guardians := [⟨10, 7⟩] }

/-- Guardian 7 with no student links. -/
def stUnlinked : DB :=
  { emptyDB with guardians := [⟨7, "박보호", "010-2222"⟩] }

/-- Guardian 7 linked to students 10 and 11. -/
def stLinked2 : DB :=
  { emptyDB with
      guardians := [⟨7, "박보호", "010-2222"⟩],
      student_guardians := [⟨10, 7⟩, ⟨11, 7⟩] }

/-- One existing (student 3, guardian 4) link. -/
def stOneLink : DB :=
  { emptyDB with student_guardians := [⟨3, 4⟩] }

/-- A student already holding the academy id produced by the random draw
255 on 2026-01-02, forcing the generation loop to draw again. -/
def s8a : Student :=
  ⟨1, "AC26010200FF", "기존생", Gender.male, StudentStatus.active⟩

/-- A valid import row. -/
def r1 : ImportRow :=
  { name := some "김철수", gender := some "남", birth_date := some "2010-03-01" }

/-- An import row whose name cell is empty. -/
def r2 : ImportRow :=
  { name := some "", gender := some "여", birth_date := some "2011-05-02" }

/-- A second valid import row. -/
def r3 : ImportRow :=
  { name := some "이영희", gender := some "여", birth_date := some "2012-07-03" }

/-- An import row whose gender cell holds "여". -/
def rowF : ImportRow :=
  { name := some "박영수", gender := some "여", birth_date := some "2011-05-02" }

/-- The attribute mapping `processRow` produces for `rowF`. -/
def dF : StudentData :=
  { name := "박영수", gender := Gender.female, birth_date := (2011, 5, 2),
    phone := "", school_name := none, grade := none, postal_code := "",
    road_address := none, detail_address := none }

/-- The dropped copy of an enrollment row, as `drop_enrollment` writes it:
status DROPPED and `end_date` stamped with today. -/
def droppedRow (today : Nat) (e : Enrollment) : Enrollment :=
  { e with status := EnrollmentStatus.dropped, end_date := some today }

/-- Course 1 (capacity 5) with one active enrollment of student 2, a state
satisfying the at-most-one-active-per-pair invariant. -/
def stInv : DB :=
  { emptyDB with
      courses := [⟨1, "대수1", 5, CourseStatus.active⟩],
      enrollments := [⟨1, 2, 1, 40, 40, none, EnrollmentStatus.active⟩],
      next_enrollment_id := 2 }

/-- Caller-supplied enrollment data that overrides the student id with 2. -/
def dataStudent2 : EnrollmentData := { student_id := some 2 }

/-! ## Helper lemmas -/

theorem digitChar_isDigit_of_lt : ∀ k < 10, (Nat.digitChar k).isDigit = true := by
  decide

theorem upperHexChar_isUpperHex_of_lt :
    ∀ k < 16, isUpperHex (Nat.digitChar k).toUpper = true := by
  decide

theorem generate_academy_id_valid (y m d r : Nat) :
    isValidAcademyId (generate_academy_id y m d r) = true := by
  have hd : ∀ k : Nat, (Nat.digitChar (k % 10)).isDigit = true := fun k =>
    digitChar_isDigit_of_lt _ (Nat.mod_lt _ (by norm_num))
  have hh : ∀ k : Nat, isUpperHex (Nat.digitChar (k % 16)).toUpper = true := fun k =>
    upperHexChar_isUpperHex_of_lt _ (Nat.mod_lt _ (by norm_num))
  show ((two_digits y ++ two_digits m ++ two_digits d ++ four_hex r).length == 10
      && ((two_digits y ++ two_digits m ++ two_digits d ++ four_hex r).take 6).all
          Char.isDigit
      && ((two_digits y ++ two_digits m ++ two_digits d ++ four_hex r).drop 6).all
          isUpperHex) = true
  simp [two_digits, four_hex, upperHexChar, hd, hh]

theorem linkedAtMostOnce_append (links : List SGLink) (s g : Nat)
    (h : ∀ l ∈ links, ¬(l.student_id = s ∧ l.guardian_id = g))
    (hinv : linkedAtMostOnce links) :
    linkedAtMostOnce (links ++ [⟨s, g⟩]) := by
  rw [linkedAtMostOnce, List.pairwise_append]
  refine ⟨hinv, List.pairwise_singleton _ _, ?_⟩
  intro a ha b hb
  simp only [List.mem_singleton] at hb
  subst hb
  rintro ⟨h1, h2⟩
  exact h a ha ⟨h1, h2⟩

/-! ## C1 -/

/-- C1: merging duplicates into a primary guardian never performs the
re-pointing the claim describes: on the concrete input (primary 1,
duplicates [2], duplicate 2 linked to student 10) `merge` returns the
wrapped `AttributeError` — `get_guardian_by_id` is not a method of the
service, whose lookup is `get_by_id` — the duplicate guardian row survives
and the link is not moved. -/
theorem c1_merge_attribute_error :
    GuardianService.merge stMerge 1 [2] =
      (Except.error ("보호자 병합 실패: " ++ GuardianService.mergeAttributeErrorMsg),
       stMerge)
    ∧ GuardianService.get_by_id (GuardianService.merge stMerge 1 [2]).2 2 =
        some ⟨2, "김나", "010-1111"⟩
    ∧ (GuardianService.merge stMerge 1 [2]).2.student_guardians = [⟨10, 2⟩] := by
  exact ⟨rfl, rfl, rfl⟩

/-! ## C5 -/

/-- C5 (counterexample): deleting guardian 7 while one student link exists
fails, but the error message contains no digit at all — so it does not
surface the number of existing links — and the message is the same whether
one or two links exist. -/
theorem c5_no_count_counterexample :
    GuardianService.delete stLinked 7 =
      (Except.error ("보호자 삭제 실패: " ++ GuardianService.deleteLinkedMsg), stLinked)
    ∧ (("보호자 삭제 실패: " ++ GuardianService.deleteLinkedMsg).toList.all
        (fun c => !c.isDigit)) = true
    ∧ (GuardianService.delete stLinked2 7).1 = (GuardianService.delete stLinked 7).1 := by
  exact ⟨rfl, by decide, rfl⟩

/-- C5 (amended): for an existing guardian, delete fails with the fixed
descriptive link-guard error (which does not include the link count) and
leaves the state unchanged while at least one student link exists, and
succeeds, removing exactly the guardian row, when no link exists. -/
theorem c5_delete_guard (st : DB) (gid : Nat) (g : Guardian)
    (hg : GuardianService.get_by_id st gid = some g) :
    (0 < st.student_guardians.countP (fun l => l.guardian_id == gid) →
      GuardianService.delete st gid =
        (Except.error ("보호자 삭제 실패: " ++ GuardianService.deleteLinkedMsg), st))
    ∧ (st.student_guardians.countP (fun l => l.guardian_id == gid) = 0 →
      GuardianService.delete st gid =
        (Except.ok true,
         { st with guardians := st.guardians.filter (fun x => !(x.id == gid)) })) := by
  unfold GuardianService.delete
  rw [hg]
  constructor
  · intro hpos
    rw [if_pos hpos]
  · intro hzero
    rw [if_neg (by omega)]

/-- C5 witness: guardian 7 of `stLinked` has one link and cannot be
deleted; in `stUnlinked` it has none and the deletion removes its row. -/
theorem c5_delete_guard_witness :
    GuardianService.delete stLinked 7 =
      (Except.error ("보호자 삭제 실패: " ++ GuardianService.deleteLinkedMsg), stLinked)
    ∧ GuardianService.delete stUnlinked 7 =
        (Except.ok true, { stUnlinked with guardians := [] }) := by
  constructor
  · exact (c5_delete_guard stLinked 7 ⟨7, "박보호", "010-2222"⟩ (by decide)).1 (by decide)
  · have h := (c5_delete_guard stUnlinked 7 ⟨7, "박보호", "010-2222"⟩ (by decide)).2 (by decide)
    rw [h]
    rfl

/-! ## C6 -/

/-- C6 (counterexample): on the empty database the (1, 2) pair is not
linked, yet `StudentService.unlink_guardian` returns true, not false. -/
theorem c6_unlink_true_counterexample :
    emptyDB.student_guardians.find?
        (fun l => l.student_id == 1 && l.guardian_id == 2) = none
    ∧ StudentService.unlink_guardian emptyDB 1 2 = (true, emptyDB) := by
  exact ⟨rfl, rfl⟩

/-- C6 (amended): dropping a missing enrollment id and
`GuardianService.unlink_student` on an unlinked pair return false without
mutating state; `StudentService.unlink_guardian` on an unlinked pair also
mutates nothing but returns true. -/
theorem c6_missing_returns (st : DB) (today eid sid gid : Nat) :
    (st.enrollments.find? (fun e => e.id == eid) = none →
      CourseService.drop_enrollment st today eid = (false, st))
    ∧ (st.student_guardians.find?
        (fun l => l.guardian_id == gid && l.student_id == sid) = none →
      GuardianService.unlink_student st gid sid = (false, st))
    ∧ (st.student_guardians.find?
        (fun l => l.student_id == sid && l.guardian_id == gid) = none →
      StudentService.unlink_guardian st sid gid = (true, st)) := by
  refine ⟨?_, ?_, ?_⟩
  · intro h
    unfold CourseService.drop_enrollment
    rw [h]
  · intro h
    unfold GuardianService.unlink_student
    rw [h]
  · intro h
    unfold StudentService.unlink_guardian
    rw [h]

/-- C6 witness: all three no-op branches at the empty database. -/
theorem c6_missing_returns_witness :
    CourseService.drop_enrollment emptyDB 9 5 = (false, emptyDB)
    ∧ GuardianService.unlink_student emptyDB 4 3 = (false, emptyDB)
    ∧ StudentService.unlink_guardian emptyDB 3 4 = (true, emptyDB) :=
  ⟨(c6_missing_returns emptyDB 9 5 3 4).1 rfl,
   (c6_missing_returns emptyDB 9 5 3 4).2.1 rfl,
   (c6_missing_returns emptyDB 9 5 3 4).2.2 rfl⟩

/-! ## C8 -/

/-- C8: every value the unique-id loop returns has the format `AC` + 6
decimal digits + 4 uppercase hex characters, differs from every existing
student's academy id, and therefore keeps the academy ids pairwise distinct
when the new student row is added. -/
theorem c8_academy_id_format_unique (students : List Student) (y m d : Nat)
    (rs : List Nat) (aid : String)
    (h : StudentService.generate_unique_academy_id students y m d rs = some aid) :
    isValidAcademyId aid = true
    ∧ (∀ s ∈ students, s.academy_id ≠ aid)
    ∧ (∀ stu : Student, stu.academy_id = aid →
        (students.map Student.academy_id).Nodup →
        ((stu :: students).map Student.academy_id).Nodup) := by
  induction rs with
  | nil =>
      rw [StudentService.generate_unique_academy_id] at h
      simp at h
  | cons r rest ih =>
      rw [StudentService.generate_unique_academy_id, List.findSome?_cons] at h
      by_cases hany : students.any (fun s => s.academy_id == generate_academy_id y m d r)
      · rw [if_pos hany] at h
        exact ih h
      · rw [if_neg hany] at h
        injection h with h
        subst h
        refine ⟨generate_academy_id_valid y m d r, ?_, ?_⟩
        · intro s hs
          have := List.any_eq_true.not.mp hany
          push_neg at this
          have h2 := this s hs
          simpa using h2
        · intro stu hstu hnd
          rw [List.map_cons, List.nodup_cons]
          refine ⟨?_, hnd⟩
          rw [List.mem_map]
          rintro ⟨s, hs, heq⟩
          have := List.any_eq_true.not.mp hany
          push_neg at this
          have h2 := this s hs
          rw [hstu] at heq
          simp [heq] at h2

/-- C8 witness: with student `s8a` already holding the id produced by the
draw 255 on 2026-01-02, the loop skips that draw and returns the id of the
next draw 256, which is fresh and well-formed. -/
theorem c8_academy_id_format_unique_witness :
    StudentService.generate_unique_academy_id [s8a] 26 1 2 [255, 256] =
      some "AC2601020100"
    ∧ isValidAcademyId "AC2601020100" = true
    ∧ (∀ s ∈ [s8a], s.academy_id ≠ "AC2601020100") := by
  have h : StudentService.generate_unique_academy_id [s8a] 26 1 2 [255, 256] =
      some "AC2601020100" := by decide
  exact ⟨h, (c8_academy_id_format_unique [s8a] 26 1 2 [255, 256] "AC2601020100" h).1,
    (c8_academy_id_format_unique [s8a] 26 1 2 [255, 256] "AC2601020100" h).2.1⟩

/-! ## C7 -/

/-- C7: both link operations always return success; on an already-linked
pair each is a no-op leaving the state unchanged; and each preserves the
at-most-once-per-pair join invariant, so no reachable state links a pair
twice. -/
theorem c7_link_idempotent (st : DB) (sid gid : Nat) :
    (StudentService.link_guardian st sid gid).1 = true
    ∧ (GuardianService.link_student st gid sid).1 = true
    ∧ ((⟨sid, gid⟩ : SGLink) ∈ st.student_guardians →
        (StudentService.link_guardian st sid gid).2 = st
        ∧ (GuardianService.link_student st gid sid).2 = st)
    ∧ (linkedAtMostOnce st.student_guardians →
        linkedAtMostOnce (StudentService.link_guardian st sid gid).2.student_guardians
        ∧ linkedAtMostOnce (GuardianService.link_student st gid sid).2.student_guardians) := by
  have hmem1 : (⟨sid, gid⟩ : SGLink) ∈ st.student_guardians →
      (st.student_guardians.find?
        (fun l => l.student_id == sid && l.guardian_id == gid)).isSome := by
    intro hm
    rw [List.find?_isSome]
    exact ⟨⟨sid, gid⟩, hm, by simp⟩
  have hmem2 : (⟨sid, gid⟩ : SGLink) ∈ st.student_guardians →
      (st.student_guardians.find?
        (fun l => l.guardian_id == gid && l.student_id == sid)).isSome := by
    intro hm
    rw [List.find?_isSome]
    exact ⟨⟨sid, gid⟩, hm, by simp⟩
  refine ⟨?_, ?_, ?_, ?_⟩
  · unfold StudentService.link_guardian
    split <;> rfl
  · unfold GuardianService.link_student
    split <;> rfl
  · intro hm
    constructor
    · unfold StudentService.link_guardian
      split
      · rfl
      · next hfind =>
          exact absurd (hmem1 hm) (by rw [hfind]; simp)
    · unfold GuardianService.link_student
      split
      · rfl
      · next hfind =>
          exact absurd (hmem2 hm) (by rw [hfind]; simp)
  · intro hinv
    constructor
    · unfold StudentService.link_guardian
      split
      · exact hinv
      · next hfind =>
          refine linkedAtMostOnce_append _ sid gid ?_ hinv
          intro l hl hlp
          have := List.find?_eq_none.mp hfind l hl
          simp only [Bool.and_eq_true, beq_iff_eq, not_and] at this
          exact this hlp.1 hlp.2
    · unfold GuardianService.link_student
      split
      · exact hinv
      · next hfind =>
          refine linkedAtMostOnce_append _ sid gid ?_ hinv
          intro l hl hlp
          have := List.find?_eq_none.mp hfind l hl
          simp only [Bool.and_eq_true, beq_iff_eq, not_and] at this
          exact this hlp.2 hlp.1

/-- C7 witness: value-level instance on the one-link state — a second link of
the (3, 4) pair changes nothing and keeps the invariant. -/
theorem c7_link_idempotent_witness :
    (StudentService.link_guardian stOneLink 3 4).2 = stOneLink
    ∧ linkedAtMostOnce (GuardianService.link_student stOneLink 4 3).2.student_guardians :=
  ⟨((c7_link_idempotent stOneLink 3 4).2.2.1 (by decide)).1,
   ((c7_link_idempotent stOneLink 3 4).2.2.2 (by decide)).2⟩

/-! ## Enrollment helper lemmas -/

theorem find?_active_pair_eq_none (st : DB) (sid cid : Nat)
    (h : ¬∃ e ∈ st.enrollments,
        e.student_id = sid ∧ e.course_id = cid ∧ e.status = EnrollmentStatus.active) :
    st.enrollments.find?
      (fun e => e.student_id == sid && e.course_id == cid
        && e.status == EnrollmentStatus.active) = none := by
  rw [List.find?_eq_none]
  intro e he hbe
  apply h
  refine ⟨e, he, ?_⟩
  simpa [Bool.and_eq_true, beq_iff_eq, and_assoc] using hbe

theorem enroll_error_of_active_dup (st : DB) (today sid cid : Nat)
    (data : Option EnrollmentData)
    (h : ∃ e ∈ st.enrollments,
        e.student_id = sid ∧ e.course_id = cid ∧ e.status = EnrollmentStatus.active) :
    CourseService.enroll_student st today sid cid data =
      (Except.error "이미 이 수강과목에 등록되어 있습니다.", st) := by
  obtain ⟨e, he, h1, h2, h3⟩ := h
  have hs : (st.enrollments.find?
      (fun e => e.student_id == sid && e.course_id == cid
        && e.status == EnrollmentStatus.active)).isSome := by
    rw [List.find?_isSome]
    exact ⟨e, he, by simp [h1, h2, h3]⟩
  obtain ⟨x, hx⟩ := Option.isSome_iff_exists.mp hs
  unfold CourseService.enroll_student
  rw [hx]

theorem enroll_error_of_no_course (st : DB) (today sid cid : Nat)
    (data : Option EnrollmentData)
    (hdup : st.enrollments.find?
      (fun e => e.student_id == sid && e.course_id == cid
        && e.status == EnrollmentStatus.active) = none)
    (hc : CourseService.get_course_by_id st cid = none) :
    CourseService.enroll_student st today sid cid data =
      (Except.error "존재하지 않는 수강과목입니다.", st) := by
  unfold CourseService.enroll_student
  rw [hdup, hc]

theorem enroll_error_of_full (st : DB) (today sid cid : Nat)
    (data : Option EnrollmentData) (course : Course)
    (hdup : st.enrollments.find?
      (fun e => e.student_id == sid && e.course_id == cid
        && e.status == EnrollmentStatus.active) = none)
    (hc : CourseService.get_course_by_id st cid = some course)
    (hcap : course.capacity ≤ CourseService.get_course_enrollment_count st cid) :
    CourseService.enroll_student st today sid cid data =
      (Except.error "수강과목 정원이 초과되었습니다.", st) := by
  unfold CourseService.enroll_student
  simp only [hdup, hc]
  rw [if_pos hcap]

theorem enroll_ok_of_room (st : DB) (today sid cid : Nat)
    (data : Option EnrollmentData) (course : Course)
    (hdup : st.enrollments.find?
      (fun e => e.student_id == sid && e.course_id == cid
        && e.status == EnrollmentStatus.active) = none)
    (hc : CourseService.get_course_by_id st cid = some course)
    (hcap : CourseService.get_course_enrollment_count st cid < course.capacity) :
    CourseService.enroll_student st today sid cid data =
      (Except.ok (enrolledRow st today sid cid data),
       { st with enrollments := st.enrollments ++ [enrolledRow st today sid cid data],
                 next_enrollment_id := st.next_enrollment_id + 1 }) := by
  unfold CourseService.enroll_student
  simp only [hdup, hc]
  rw [if_neg (by omega)]
  rfl

/-! ## C2 -/

/-- C2 (counterexample): the claim says the accepted call inserts an
enrollment with status active, but caller-supplied overrides win — enrolling
in the empty course 1 with `dataDropped` (status override DROPPED) succeeds
and inserts a DROPPED row. -/
theorem c2_status_override_counterexample :
    (CourseService.enroll_student stCourseOnly 100 1 1 (some dataDropped)).1 =
      Except.ok ⟨1, 1, 1, 100, 100, none, EnrollmentStatus.dropped⟩
    ∧ EnrollmentStatus.dropped ≠ EnrollmentStatus.active := by
  exact ⟨rfl, by decide⟩

/-- C2 (amended): enrollment is rejected (checked in this order) when an
active enrollment for the pair exists, when the course is missing, and when
the active count has reached the capacity — each rejection leaving the state
unchanged; otherwise it inserts the row `enrolledRow`, whose status is
active and whose dates are today unless the caller-supplied data overrides
them (the supplied status and dates are then stored). -/
theorem c2_enroll_contract (st : DB) (today sid cid : Nat)
    (data : Option EnrollmentData) :
    ((∃ e ∈ st.enrollments,
        e.student_id = sid ∧ e.course_id = cid ∧ e.status = EnrollmentStatus.active) →
      CourseService.enroll_student st today sid cid data =
        (Except.error "이미 이 수강과목에 등록되어 있습니다.", st))
    ∧ (¬(∃ e ∈ st.enrollments,
        e.student_id = sid ∧ e.course_id = cid ∧ e.status = EnrollmentStatus.active) →
      CourseService.get_course_by_id st cid = none →
      CourseService.enroll_student st today sid cid data =
        (Except.error "존재하지 않는 수강과목입니다.", st))
    ∧ (∀ course : Course,
      ¬(∃ e ∈ st.enrollments,
        e.student_id = sid ∧ e.course_id = cid ∧ e.status = EnrollmentStatus.active) →
      CourseService.get_course_by_id st cid = some course →
      course.capacity ≤ CourseService.get_course_enrollment_count st cid →
      CourseService.enroll_student st today sid cid data =
        (Except.error "수강과목 정원이 초과되었습니다.", st))
    ∧ (∀ course : Course,
      ¬(∃ e ∈ st.enrollments,
        e.student_id = sid ∧ e.course_id = cid ∧ e.status = EnrollmentStatus.active) →
      CourseService.get_course_by_id st cid = some course →
      CourseService.get_course_enrollment_count st cid < course.capacity →
      CourseService.enroll_student st today sid cid data =
        (Except.ok (enrolledRow st today sid cid data),
         { st with
             enrollments := st.enrollments ++ [enrolledRow st today sid cid data],
             next_enrollment_id := st.next_enrollment_id + 1 })
      ∧ (enrolledRow st today sid cid data).status =
          (data.getD {}).status.getD EnrollmentStatus.active
      ∧ (enrolledRow st today sid cid data).start_date =
          (data.getD {}).start_date.getD today
      ∧ (enrolledRow st today sid cid data).enrollment_date =
          (data.getD {}).enrollment_date.getD today) := by
  refine ⟨?_, ?_, ?_, ?_⟩
  · exact enroll_error_of_active_dup st today sid cid data
  · intro h hc
    exact enroll_error_of_no_course st today sid cid data
      (find?_active_pair_eq_none st sid cid h) hc
  · intro course h hc hcap
    exact enroll_error_of_full st today sid cid data course
      (find?_active_pair_eq_none st sid cid h) hc hcap
  · intro course h hc hcap
    exact ⟨enroll_ok_of_room st today sid cid data course
      (find?_active_pair_eq_none st sid cid h) hc hcap, rfl, rfl, rfl⟩

/-- C2 witness: all four branches at concrete states — duplicate active pair
in `stDup`, missing course 9 in the empty database, full course 1 in
`stFull`, and a successful default insert into `stOpen`. -/
theorem c2_enroll_contract_witness :
    CourseService.enroll_student stDup 60 1 1 none =
      (Except.error "이미 이 수강과목에 등록되어 있습니다.", stDup)
    ∧ CourseService.enroll_student emptyDB 60 1 9 none =
      (Except.error "존재하지 않는 수강과목입니다.", emptyDB)
    ∧ CourseService.enroll_student stFull 60 3 1 none =
      (Except.error "수강과목 정원이 초과되었습니다.", stFull)
    ∧ CourseService.enroll_student stOpen 60 3 1 none =
      (Except.ok (enrolledRow stOpen 60 3 1 none),
       { stOpen with
           enrollments := stOpen.enrollments ++ [enrolledRow stOpen 60 3 1 none],
           next_enrollment_id := stOpen.next_enrollment_id + 1 }) :=
  ⟨(c2_enroll_contract stDup 60 1 1 none).1 (by decide),
   (c2_enroll_contract emptyDB 60 1 9 none).2.1 (by decide) rfl,
   (c2_enroll_contract stFull 60 3 1 none).2.2.1 ⟨1, "대수1", 1, CourseStatus.active⟩
     (by decide) rfl (by decide),
   ((c2_enroll_contract stOpen 60 3 1 none).2.2.2 ⟨1, "대수1", 2, CourseStatus.active⟩
     (by decide) rfl (by decide)).1⟩

/-! ## C3 -/

/-- C3: a course whose active-enrollment count equals its capacity rejects a
further attempt by a student with no active enrollment in it; the error is
the capacity message, the state is unchanged, and the active count is still
exactly the capacity. -/
theorem c3_capacity_reject (st : DB) (today sid cid : Nat)
    (data : Option EnrollmentData) (course : Course)
    (hc : CourseService.get_course_by_id st cid = some course)
    (hfull : CourseService.get_course_enrollment_count st cid = course.capacity)
    (hnot : ¬(∃ e ∈ st.enrollments,
        e.student_id = sid ∧ e.course_id = cid ∧ e.status = EnrollmentStatus.active)) :
    CourseService.enroll_student st today sid cid data =
      (Except.error "수강과목 정원이 초과되었습니다.", st)
    ∧ (CourseService.enroll_student st today sid cid data).2.enrollments =
        st.enrollments
    ∧ CourseService.get_course_enrollment_count
        (CourseService.enroll_student st today sid cid data).2 cid =
      course.capacity := by
  have h := enroll_error_of_full st today sid cid data course
    (find?_active_pair_eq_none st sid cid hnot) hc (le_of_eq hfull.symm)
  refine ⟨h, ?_, ?_⟩
  · rw [h]
  · rw [h]
    exact hfull

/-- C3 witness: course 1 of `stFull` has capacity 1 and one active
enrollment; student 3's attempt is rejected and the count stays 1. -/
theorem c3_capacity_reject_witness :
    CourseService.enroll_student stFull 60 3 1 none =
      (Except.error "수강과목 정원이 초과되었습니다.", stFull)
    ∧ CourseService.get_course_enrollment_count
        (CourseService.enroll_student stFull 60 3 1 none).2 1 = 1 :=
  ⟨(c3_capacity_reject stFull 60 3 1 none ⟨1, "대수1", 1, CourseStatus.active⟩
      rfl (by decide) (by decide)).1,
   (c3_capacity_reject stFull 60 3 1 none ⟨1, "대수1", 1, CourseStatus.active⟩
      rfl (by decide) (by decide)).2.2⟩

/-! ## C4 -/

theorem dropFirst_append (today : Nat) (l1 l2 : List Enrollment) (e : Enrollment)
    (h : ∀ a ∈ l1, a.id ≠ e.id) :
    CourseService.dropFirst today e.id (l1 ++ e :: l2) =
      l1 ++ (droppedRow today e :: l2) := by
  induction l1 with
  | nil => simp [CourseService.dropFirst, droppedRow]
  | cons a l ih =>
      have ha : a.id ≠ e.id := h a (List.mem_cons_self a l)
      simp only [List.cons_append, CourseService.dropFirst, List.append_eq]
      rw [if_neg (by simpa using ha)]
      rw [ih (fun x hx => h x (List.mem_cons_of_mem a hx))]

theorem mem_dropFirst (today eid : Nat) (l : List Enrollment) (b : Enrollment)
    (hb : b ∈ CourseService.dropFirst today eid l) :
    b ∈ l ∨ ∃ c ∈ l, b = droppedRow today c := by
  induction l with
  | nil => simp [CourseService.dropFirst] at hb
  | cons a l ih =>
      unfold CourseService.dropFirst at hb
      by_cases hid : (a.id == eid) = true
      · rw [if_pos hid] at hb
        rcases List.mem_cons.mp hb with hba | hbl
        · exact Or.inr ⟨a, List.mem_cons_self a l, hba⟩
        · exact Or.inl (List.mem_cons_of_mem a hbl)
      · rw [if_neg hid] at hb
        rcases List.mem_cons.mp hb with hba | hbl
        · exact Or.inl (hba ▸ List.mem_cons_self a l)
        · rcases ih hbl with h1 | ⟨c, hc, hbc⟩
          · exact Or.inl (List.mem_cons_of_mem a h1)
          · exact Or.inr ⟨c, List.mem_cons_of_mem a hc, hbc⟩

theorem activeAtMostOnce_dropFirst (today eid : Nat) (es : List Enrollment)
    (h : activeAtMostOnce es) :
    activeAtMostOnce (CourseService.dropFirst today eid es) := by
  induction es with
  | nil => simpa [CourseService.dropFirst] using h
  | cons a l ih =>
      rw [activeAtMostOnce, List.pairwise_cons] at h
      obtain ⟨h1, h2⟩ := h
      unfold CourseService.dropFirst
      by_cases hid : (a.id == eid) = true
      · rw [if_pos hid]
        rw [activeAtMostOnce, List.pairwise_cons]
        refine ⟨?_, h2⟩
        rintro b hb ⟨haA, _⟩
        simp at haA
      · rw [if_neg hid]
        rw [activeAtMostOnce, List.pairwise_cons]
        refine ⟨?_, ih h2⟩
        rintro b hb ⟨haA, hbA, hsid, hcid⟩
        rcases mem_dropFirst today eid l b hb with hbl | ⟨c, hc, hbc⟩
        · exact h1 b hbl ⟨haA, hbA, hsid, hcid⟩
        · rw [hbc] at hbA
          simp [droppedRow] at hbA

theorem drop_found (st : DB) (today : Nat) (e : Enrollment)
    (l1 l2 : List Enrollment) (hsplit : st.enrollments = l1 ++ e :: l2)
    (h1 : ∀ a ∈ l1, a.id ≠ e.id) :
    CourseService.drop_enrollment st today e.id =
      (true, { st with enrollments := l1 ++ (droppedRow today e :: l2) }) := by
  unfold CourseService.drop_enrollment
  have hsome : (st.enrollments.find? (fun x => x.id == e.id)).isSome := by
    rw [List.find?_isSome]
    refine ⟨e, ?_, by simp⟩
    rw [hsplit]
    exact List.mem_append_right _ (List.mem_cons_self e l2)
  obtain ⟨x, hx⟩ := Option.isSome_iff_exists.mp hsome
  rw [hx]
  rw [hsplit]
  rw [dropFirst_append today l1 l2 e h1]

/-- C4 (counterexample): the invariant does not hold in every state the
enrollment operations can reach — `stInv` satisfies it, yet enrolling
student 1 in course 1 with a caller-supplied `student_id` override of 2
succeeds (the duplicate check ran against the pair (1, 1)) and leaves two
active enrollments of the pair (2, 1). -/
theorem c4_pair_override_counterexample :
    activeAtMostOnce stInv.enrollments
    ∧ (CourseService.enroll_student stInv 60 1 1 (some dataStudent2)).1 =
        Except.ok (enrolledRow stInv 60 1 1 (some dataStudent2))
    ∧ (enrolledRow stInv 60 1 1 (some dataStudent2)).student_id = 2
    ∧ (enrolledRow stInv 60 1 1 (some dataStudent2)).status = EnrollmentStatus.active
    ∧ ¬ activeAtMostOnce
        (CourseService.enroll_student stInv 60 1 1 (some dataStudent2)).2.enrollments := by
  exact ⟨by decide, rfl, rfl, rfl, by decide⟩

/-- C4 (amended): the at-most-one-active-enrollment-per-pair invariant.  Enrolling a
pair that already has an active enrollment is rejected with the state
unchanged; dropping preserves the invariant; enrolling (without overriding
the pair through the caller-supplied data) preserves the invariant; and
after the pair's single active enrollment is dropped, a fresh default enroll
call for the same pair succeeds and inserts an active row. -/
theorem c4_active_enrollment_invariant (st : DB) (today today2 sid cid : Nat)
    (data : Option EnrollmentData) (e : Enrollment) (course : Course) :
    ((∃ e2 ∈ st.enrollments,
        e2.student_id = sid ∧ e2.course_id = cid ∧ e2.status = EnrollmentStatus.active) →
      CourseService.enroll_student st today sid cid data =
        (Except.error "이미 이 수강과목에 등록되어 있습니다.", st))
    ∧ (activeAtMostOnce st.enrollments →
        activeAtMostOnce (CourseService.drop_enrollment st today e.id).2.enrollments)
    ∧ (activeAtMostOnce st.enrollments →
        (data.getD {}).student_id = none →
        (data.getD {}).course_id = none →
        activeAtMostOnce (CourseService.enroll_student st today sid cid data).2.enrollments)
    ∧ (idsDistinct st.enrollments →
        activeAtMostOnce st.enrollments →
        e ∈ st.enrollments → e.student_id = sid → e.course_id = cid →
        e.status = EnrollmentStatus.active →
        CourseService.get_course_by_id st cid = some course →
        CourseService.get_course_enrollment_count st cid ≤ course.capacity →
        (CourseService.drop_enrollment st today e.id).1 = true
        ∧ (CourseService.enroll_student (CourseService.drop_enrollment st today e.id).2
            today2 sid cid none).1 =
          Except.ok (enrolledRow (CourseService.drop_enrollment st today e.id).2
            today2 sid cid none)
        ∧ (enrolledRow (CourseService.drop_enrollment st today e.id).2
            today2 sid cid none).status = EnrollmentStatus.active) := by
  refine ⟨enroll_error_of_active_dup st today sid cid data, ?_, ?_, ?_⟩
  · intro hinv
    unfold CourseService.drop_enrollment
    cases hfind : st.enrollments.find? (fun x => x.id == e.id) with
    | none => exact hinv
    | some x => exact activeAtMostOnce_dropFirst today e.id st.enrollments hinv
  · intro hinv hsn hcn
    by_cases hdup : ∃ e2 ∈ st.enrollments,
        e2.student_id = sid ∧ e2.course_id = cid ∧ e2.status = EnrollmentStatus.active
    · rw [enroll_error_of_active_dup st today sid cid data hdup]
      exact hinv
    · have hfind := find?_active_pair_eq_none st sid cid hdup
      cases hc : CourseService.get_course_by_id st cid with
      | none =>
          rw [enroll_error_of_no_course st today sid cid data hfind hc]
          exact hinv
      | some c0 =>
          by_cases hcap : c0.capacity ≤ CourseService.get_course_enrollment_count st cid
          · rw [enroll_error_of_full st today sid cid data c0 hfind hc hcap]
            exact hinv
          · rw [enroll_ok_of_room st today sid cid data c0 hfind hc (by omega)]
            show activeAtMostOnce (st.enrollments ++ [enrolledRow st today sid cid data])
            rw [activeAtMostOnce, List.pairwise_append]
            refine ⟨hinv, List.pairwise_singleton _ _, ?_⟩
            intro a ha b hb
            simp only [List.mem_singleton] at hb
            subst hb
            rintro ⟨haA, hbA, hsid, hcid⟩
            apply hdup
            refine ⟨a, ha, ?_, ?_, haA⟩
            · rw [hsid]
              show (enrolledRow st today sid cid data).student_id = sid
              unfold enrolledRow
              rw [hsn]
              rfl
            · rw [hcid]
              show (enrolledRow st today sid cid data).course_id = cid
              unfold enrolledRow
              rw [hcn]
              rfl
  · intro hids hinv he hesid hecid heact hc hcap
    obtain ⟨l1, l2, hsplit⟩ := List.append_of_mem he
    have hids' : ∀ a ∈ l1, a.id ≠ e.id := by
      rw [idsDistinct, hsplit, List.pairwise_append] at hids
      exact fun a ha => hids.2.2 a ha e (List.mem_cons_self e l2)
    have hdrop := drop_found st today e l1 l2 hsplit hids'
    rw [hdrop]
    have hinv' := hinv
    rw [activeAtMostOnce, hsplit, List.pairwise_append, List.pairwise_cons] at hinv'
    obtain ⟨hp1, ⟨hre, hp2⟩, hcross⟩ := hinv'
    have hdup2 : (({ st with enrollments := l1 ++ (droppedRow today e :: l2) } : DB).enrollments.find?
        (fun x => x.student_id == sid && x.course_id == cid
          && x.status == EnrollmentStatus.active)) = none := by
      rw [List.find?_eq_none]
      intro a ha hbe
      simp only [Bool.and_eq_true, beq_iff_eq] at hbe
      obtain ⟨⟨hasid, hacid⟩, haA⟩ := hbe
      rcases List.mem_append.mp ha with hal1 | har
      · exact hcross a hal1 e (List.mem_cons_self e l2)
          ⟨haA, heact, hasid.trans hesid.symm, hacid.trans hecid.symm⟩
      · rcases List.mem_cons.mp har with hae | hal2
        · rw [hae] at haA
          simp [droppedRow] at haA
        · exact hre a hal2 ⟨heact, haA, hesid.trans hasid.symm, hecid.trans hacid.symm⟩
    have hc2 : CourseService.get_course_by_id
        ({ st with enrollments := l1 ++ (droppedRow today e :: l2) } : DB) cid =
        some course := hc
    have hcap2 : CourseService.get_course_enrollment_count
        ({ st with enrollments := l1 ++ (droppedRow today e :: l2) } : DB) cid <
        course.capacity := by
      have hold : CourseService.get_course_enrollment_count st cid =
          (l1.countP (fun x => x.course_id == cid && x.status == EnrollmentStatus.active))
          + (l2.countP (fun x => x.course_id == cid && x.status == EnrollmentStatus.active))
          + 1 := by
        unfold CourseService.get_course_enrollment_count
        rw [hsplit, List.countP_append, List.countP_cons]
        simp [hecid, heact]
        omega
      have hnew : CourseService.get_course_enrollment_count
          ({ st with enrollments := l1 ++ (droppedRow today e :: l2) } : DB) cid =
          (l1.countP (fun x => x.course_id == cid && x.status == EnrollmentStatus.active))
          + (l2.countP (fun x => x.course_id == cid && x.status == EnrollmentStatus.active)) := by
        unfold CourseService.get_course_enrollment_count
        show (l1 ++ (droppedRow today e :: l2)).countP _ = _
        rw [List.countP_append, List.countP_cons]
        simp [droppedRow]
      rw [hold] at hcap
      omega
    refine ⟨rfl, ?_, ?_⟩
    · rw [enroll_ok_of_room _ today2 sid cid none course hdup2 hc2 hcap2]
    · rfl

/-- C4 witness: on concrete states — the duplicate active pair of `stDup` is
rejected; dropping enrollment 1 of `stC4w` keeps the invariant; a default
enroll into `stOpen` keeps the invariant; and dropping student 1's single
active enrollment in the full course of `stC4w` lets the same pair re-enroll
actively. -/
theorem c4_active_enrollment_invariant_witness :
    CourseService.enroll_student stDup 60 1 1 none =
      (Except.error "이미 이 수강과목에 등록되어 있습니다.", stDup)
    ∧ activeAtMostOnce (CourseService.drop_enrollment stC4w 70 1).2.enrollments
    ∧ activeAtMostOnce (CourseService.enroll_student stOpen 60 3 1 none).2.enrollments
    ∧ (CourseService.drop_enrollment stC4w 70 1).1 = true
    ∧ (CourseService.enroll_student (CourseService.drop_enrollment stC4w 70 1).2
        71 1 1 none).1 =
      Except.ok (enrolledRow (CourseService.drop_enrollment stC4w 70 1).2 71 1 1 none)
    ∧ (enrolledRow (CourseService.drop_enrollment stC4w 70 1).2 71 1 1 none).status =
        EnrollmentStatus.active := by
  have h4 := (c4_active_enrollment_invariant stC4w 70 71 1 1 none e4
    ⟨1, "수학", 1, CourseStatus.active⟩).2.2.2 (by decide) (by decide) (by decide)
    rfl rfl rfl rfl (by decide)
  exact ⟨(c4_active_enrollment_invariant stDup 60 60 1 1 none e4
      ⟨1, "대수1", 5, CourseStatus.active⟩).1 (by decide),
    (c4_active_enrollment_invariant stC4w 70 71 1 1 none e4
      ⟨1, "수학", 1, CourseStatus.active⟩).2.1 (by decide),
    (c4_active_enrollment_invariant stOpen 60 60 3 1 none e4
      ⟨1, "대수1", 2, CourseStatus.active⟩).2.2.1 (by decide) rfl rfl,
    h4.1, h4.2.1, h4.2.2⟩

/-! ## C9 -/

theorem importLoop_counts (i : Nat) (rows : List ImportRow) :
    (StudentService.importLoop i rows).1.success_count = rows.countP StudentService.rowOk
    ∧ (StudentService.importLoop i rows).1.error_count =
        rows.countP (fun r => !StudentService.rowOk r)
    ∧ (StudentService.importLoop i rows).1.success_count
        + (StudentService.importLoop i rows).1.error_count = rows.length
    ∧ (StudentService.importLoop i rows).2 =
        rows.filterMap (fun r => (StudentService.processRow r).toOption) := by
  induction rows generalizing i with
  | nil => exact ⟨rfl, rfl, rfl, rfl⟩
  | cons r rest ih =>
      obtain ⟨ih1, ih2, ih3, ih4⟩ := ih (i + 1)
      cases hp : StudentService.processRow r with
      | ok d =>
          have hok : StudentService.rowOk r = true := by
            unfold StudentService.rowOk
            rw [hp]
          simp [StudentService.importLoop, hp, List.countP_cons, hok, ih1, ih2, ih4,
            Except.toOption]
          omega
      | error m =>
          have hok : StudentService.rowOk r = false := by
            unfold StudentService.rowOk
            rw [hp]
          simp [StudentService.importLoop, hp, List.countP_cons, hok, ih1, ih2, ih4,
            Except.toOption]
          omega

theorem importLoop_errors (i : Nat) (rows : List ImportRow) :
    (StudentService.importLoop i rows).1.errors =
      (List.enumFrom i rows).filterMap (fun p =>
        match StudentService.processRow p.2 with
        | Except.ok _ => none
        | Except.error m => some ("행 " ++ toString (p.1 + 2) ++ ": " ++ m)) := by
  induction rows generalizing i with
  | nil => rfl
  | cons r rest ih =>
      cases hp : StudentService.processRow r with
      | ok d =>
          simp [StudentService.importLoop, hp, List.enumFrom, ih (i + 1)]
      | error m =>
          simp [StudentService.importLoop, hp, List.enumFrom, ih (i + 1)]

/-- C9: the import summary counts successes and failures row by row — a
failing row neither aborts nor hides the remaining rows — each failing row
contributes exactly one error message labelled with its 0-based DataFrame
index plus 2 (its 1-based, header-offset spreadsheet row number), and the
inserted students are exactly the rows that validated, in order.  On the
concrete 3-row batch whose second row has an empty name the result is
success_count 2, error_count 1 and the single message "행 3: 이름은
필수입니다.". -/
theorem c9_import_row_isolation (rows : List ImportRow) :
    (StudentService.import_from_excel rows).1.success_count =
        rows.countP StudentService.rowOk
    ∧ (StudentService.import_from_excel rows).1.error_count =
        rows.countP (fun r => !StudentService.rowOk r)
    ∧ (StudentService.import_from_excel rows).1.success_count
        + (StudentService.import_from_excel rows).1.error_count = rows.length
    ∧ (StudentService.import_from_excel rows).1.errors =
        rows.enum.filterMap (fun p =>
          match StudentService.processRow p.2 with
          | Except.ok _ => none
          | Except.error m => some ("행 " ++ toString (p.1 + 2) ++ ": " ++ m))
    ∧ (StudentService.import_from_excel rows).2 =
        rows.filterMap (fun r => (StudentService.processRow r).toOption)
    ∧ StudentService.import_from_excel [r1, r2, r3] =
        (⟨2, 1, ["행 3: " ++ nameRequiredMsg]⟩,
         [⟨"김철수", Gender.male, (2010, 3, 1), "", none, none, "", none, none⟩,
          ⟨"이영희", Gender.female, (2012, 7, 3), "", none, none, "", none, none⟩]) := by
  obtain ⟨h1, h2, h3, h4⟩ := importLoop_counts 0 rows
  refine ⟨h1, h2, h3, ?_, h4, by decide⟩
  have he := importLoop_errors 0 rows
  rw [StudentService.import_from_excel]
  rw [he]
  rfl

/-! ## C10 -/

/-- C10: the gender cell never affects whether a row imports — replacing it
with any value leaves the row's validation outcome unchanged — and every
imported row whose gender cell holds anything other than the exact string
"남" (including "여", a misspelling, or an empty cell) is stored with gender
female. -/
theorem c10_gender_default_female (row : ImportRow) (g : Option String) :
    StudentService.rowOk { row with gender := g } = StudentService.rowOk row
    ∧ (row.gender ≠ some "남" →
        ∀ d : StudentData, StudentService.processRow row = Except.ok d →
        d.gender = Gender.female) := by
  constructor
  · unfold StudentService.rowOk StudentService.processRow
    cases hp : parseDate (row.birth_date.getD "") with
    | none => rfl
    | some bd =>
        by_cases hn : (row.name.getD "" == "") = true
        · simp [hn]
        · simp [hn]
  · intro hg d hok
    unfold StudentService.processRow at hok
    cases hp : parseDate (row.birth_date.getD "") with
    | none =>
        simp only [hp] at hok
        simp at hok
    | some bd =>
        simp only [hp] at hok
        by_cases hn : (row.name.getD "" == "") = true
        · rw [if_pos hn] at hok
          simp at hok
        · rw [if_neg hn] at hok
          have hgf : (row.gender == some "남") = false := by
            simpa using hg
          injection hok with hok
          rw [← hok]
          simp [hgf]

/-- C10 witness: the row `rowF`, whose gender cell is "여", imports
successfully and its stored gender is female. -/
theorem c10_gender_default_female_witness :
    StudentService.processRow rowF = Except.ok dF ∧ dF.gender = Gender.female :=
  ⟨rfl, (c10_gender_default_female rowF (some "남")).2 (by decide) dF rfl⟩
